import Mathlib

/-!
Verification development for the `doctor` node-monitoring daemon.

The Go source is shallowly embedded: machine integers (`int64`, `int`) become
`Int`, wall-clock instants (`time.Time`) and durations become exact rationals
measured in seconds, and Go `float32`/`float64` arithmetic is modelled by exact
rational arithmetic (`ℚ`).  In `ℚ` the Lean convention `x / 0 = 0` replaces the
IEEE non-finite values Go would produce on a zero divisor; every place where
this matters is flagged at the theorem concerned.  Go maps become functions
into `Option`, nilable pointers become `Option`, and fallible functions return
`Except`.
-/

namespace Doctor

/-! ## Data model (clients/kava/types.go and metric/metric.go) -/

/-- SyncInfo from the kava client: sync status of a node. -/
structure SyncInfo where
  latestBlockHeight : Int
  latestBlockTime : ℚ
  catchingUp : Bool
deriving DecidableEq

/-- NodeInfo from the kava client: network identifiers of a node. -/
structure NodeInfo where
  id : String
  moniker : String
deriving DecidableEq

/-- NodeState from the kava client: result of one `/status` probe. -/
structure NodeState where
  nodeInfo : NodeInfo
  syncInfo : SyncInfo
deriving DecidableEq

/-- SyncStatusMetrics from the metric package: one sync-status sample. -/
structure SyncStatusMetrics where
  nodeId : String
  sampleLatencyMilliseconds : Int
  syncStatus : SyncInfo
  secondsBehindLive : Int
  sampledAt : ℚ
deriving DecidableEq

/-- UptimeMetric from the metric package: one availability sample. -/
structure UptimeMetric where
  endpointURL : String
  up : Bool
  sampledAt : ℚ
  rollingAveragePercentAvailable : ℚ
deriving DecidableEq

/-! ## Metric store (endpoint.go) -/

/-- NodeMetrics: a store entry carrying at most one sample of each kind
(the Go struct holds two nilable pointers). -/
structure NodeMetrics where
  syncStatusMetrics : Option SyncStatusMetrics
  uptimeMetric : Option UptimeMetric
deriving DecidableEq

/-- Errors returned by the synthetic-metric calculations. -/
inductive MetricErr where
  | nodeMetricsNotFound
  | insufficientMetricSamples
deriving DecidableEq

/-- Endpoint: the per-node metric store.  The Go map
`PerNodeMetrics map[string][]NodeMetrics` is embedded as a function into
`Option`. -/
structure Endpoint where
  perNodeMetrics : String → Option (List NodeMetrics)
  url : String
  metricSamplesToKeepPerNode : Int
  metricSamplesForSyntheticMetricCalculation : Int

/-- EndpointConfig: constructor arguments for an Endpoint. -/
structure EndpointConfig where
  url : String
  metricSamplesToKeepPerNode : Int
  metricSamplesForSyntheticMetricCalculation : Int

def DefaultMetricSamplesToKeepPerNode : Int := 10000

def DefaultMetricSamplesForSyntheticMetricCalculation : Int := 60

/-- NewEndpoint: positive config values are taken, otherwise the defaults. -/
def newEndpoint (config : EndpointConfig) : Endpoint :=
  { perNodeMetrics := fun _ => none
    url := config.url
    metricSamplesToKeepPerNode :=
      if config.metricSamplesToKeepPerNode > 0 then
        config.metricSamplesToKeepPerNode
      else DefaultMetricSamplesToKeepPerNode
    metricSamplesForSyntheticMetricCalculation :=
      if config.metricSamplesForSyntheticMetricCalculation > 0 then
        config.metricSamplesForSyntheticMetricCalculation
      else DefaultMetricSamplesForSyntheticMetricCalculation }

/-- AddSample: append a sample for `nodeId`, pruning the oldest sample first
when the sequence already holds exactly `MetricSamplesToKeepPerNode`. -/
def Endpoint.addSample (e : Endpoint) (nodeId : String) (newMetrics : NodeMetrics) : Endpoint :=
  match e.perNodeMetrics nodeId with
  | none =>
      { e with perNodeMetrics := Function.update e.perNodeMetrics nodeId (some [newMetrics]) }
  | some currentMetrics =>
      let afterPrune :=
        if (currentMetrics.length : Int) = e.metricSamplesToKeepPerNode then
          currentMetrics.drop 1
        else currentMetrics
      { e with perNodeMetrics :=
          Function.update e.perNodeMetrics nodeId (some (afterPrune ++ [newMetrics])) }

/-- Loop body of takeUpToNMostRecentMetrics: walk the newest-to-oldest list,
stopping as soon as the taken counter reaches `takeCount` (checked with `==`
exactly as the Go loop does, so a negative `takeCount` never stops early). -/
def takeUpToNAux (predicate : NodeMetrics → Bool) :
    List NodeMetrics → Int → Int → List NodeMetrics
  | [], _, _ => []
  | m :: rest, taken, takeCount =>
      if taken = takeCount then []
      else if predicate m then m :: takeUpToNAux predicate rest (taken + 1) takeCount
      else takeUpToNAux predicate rest taken takeCount

/-- reverseNodeMetrics: the Go helper fills a fresh slice with
`output[len-1-i] = input[i]`, i.e. it returns a reversed copy. -/
def reverseNodeMetrics (input : List NodeMetrics) : List NodeMetrics :=
  input.reverse

/-- takeUpToNMostRecentMetrics: up to `takeCount` most recent samples matching
the predicate, returned newest first. -/
def takeUpToNMostRecentMetrics (metrics : List NodeMetrics) (takeCount : Int)
    (predicate : NodeMetrics → Bool) : List NodeMetrics :=
  takeUpToNAux predicate (reverseNodeMetrics metrics) 0 takeCount

/-- Matcher selecting entries that carry a sync-status sample. -/
def syncStatusMetricMatcher (m : NodeMetrics) : Bool :=
  m.syncStatusMetrics.isSome

/-- Matcher selecting entries that carry an uptime sample. -/
def uptimeMetricMatcher (m : NodeMetrics) : Bool :=
  m.uptimeMetric.isSome

/-- Block height of a store entry; entries reaching the hash-rate loop always
match `syncStatusMetricMatcher` (the Go code dereferences the pointer, which
would panic on nil), so the `none` branch is unreachable there. -/
def syncHeight (m : NodeMetrics) : Int :=
  match m.syncStatusMetrics with
  | some sm => sm.syncStatus.latestBlockHeight
  | none => 0

/-- Sample time of a store entry; see `syncHeight` about the `none` branch. -/
def syncSampledAt (m : NodeMetrics) : ℚ :=
  match m.syncStatusMetrics with
  | some sm => sm.sampledAt
  | none => 0

/-- Running-average loop of CalculateNodeHashRatePerSecond: starting from the
previous sample's height and time, add one `newBlocks / secondsBetween` term
per remaining sample.  Go computes the quotient in `float32`; a zero divisor
there yields a non-finite float, here the `ℚ` convention gives `x / 0 = 0`. -/
def sumBlockRates (startingBlockHeight : Int) (startingBlockTime : ℚ) :
    List NodeMetrics → ℚ
  | [] => 0
  | sample :: rest =>
      let newBlocks : Int := syncHeight sample - startingBlockHeight
      let secondsBetweenSamples : ℚ := syncSampledAt sample - startingBlockTime
      (newBlocks : ℚ) / secondsBetweenSamples
        + sumBlockRates (syncHeight sample) (syncSampledAt sample) rest

/-- CalculateNodeHashRatePerSecond: average block rate over the most recent
(up to `MetricSamplesForSyntheticMetricCalculation`) sync samples. -/
def Endpoint.calculateNodeHashRatePerSecond (e : Endpoint) (nodeId : String) :
    Except MetricErr ℚ :=
  match e.perNodeMetrics nodeId with
  | none => .error .nodeMetricsNotFound
  | some metricSamples =>
      let samples := takeUpToNMostRecentMetrics metricSamples
        e.metricSamplesForSyntheticMetricCalculation syncStatusMetricMatcher
      match samples with
      | [] => .error .insufficientMetricSamples
      | [_] => .error .insufficientMetricSamples
      | s0 :: s1 :: rest =>
          .ok (sumBlockRates (syncHeight s0) (syncSampledAt s0) (s1 :: rest)
            / (((s0 :: s1 :: rest).length - 1 : ℕ) : ℚ))

/-- Availability flag of a store entry (false on entries without an uptime
sample; such entries never reach the uptime loop). -/
def upFlag (m : NodeMetrics) : Bool :=
  match m.uptimeMetric with
  | some u => u.up
  | none => false

/-- Counting loop of CalculateUptime: add 1 per sample that was up. -/
def countAvailabilityPeriods : List NodeMetrics → ℚ
  | [] => 0
  | sample :: rest =>
      (if upFlag sample then 1 else 0) + countAvailabilityPeriods rest

/-- CalculateUptime: fraction of up samples over the most recent (up to
`MetricSamplesForSyntheticMetricCalculation`) uptime samples. -/
def Endpoint.calculateUptime (e : Endpoint) (endpointURL : String) :
    Except MetricErr ℚ :=
  match e.perNodeMetrics endpointURL with
  | none => .error .nodeMetricsNotFound
  | some metricSamples =>
      let samples := takeUpToNMostRecentMetrics metricSamples
        e.metricSamplesForSyntheticMetricCalculation uptimeMetricMatcher
      if samples.length = 0 then .error .insufficientMetricSamples
      else .ok (countAvailabilityPeriods samples / (samples.length : ℚ))

/-! ## Pairwise-rate reformulations used to state the hash-rate claims -/

/-- Rate of one adjacent pair of samples, second sample relative to first. -/
def pairRate (a b : NodeMetrics) : ℚ :=
  ((syncHeight b - syncHeight a : Int) : ℚ) / (syncSampledAt b - syncSampledAt a)

/-- Rates of all adjacent pairs of a sample list, in list order. -/
def pairRates : List NodeMetrics → List ℚ
  | a :: b :: rest => pairRate a b :: pairRates (b :: rest)
  | _ => []

/-- Rates of the adjacent pairs whose time delta is positive, in list order:
the policy the specification words as "skip any pair with Δt ≤ 0". -/
def validPairRates : List NodeMetrics → List ℚ
  | a :: b :: rest =>
      (if 0 < syncSampledAt b - syncSampledAt a then [pairRate a b] else [])
        ++ validPairRates (b :: rest)
  | _ => []

/-- Modelled from the spec (section 9 clock handling, claim C3): the hash-rate
calculation as the claim describes it, skipping every adjacent pair with a
non-positive time delta and reducing the averaging denominator accordingly,
returning the insufficient-samples error when no valid pair remains.  The
code under `endpoint.go` has no such skip; this definition exists to be
compared against `Endpoint.calculateNodeHashRatePerSecond`. -/
def Endpoint.skipPolicyHashRatePerSecond (e : Endpoint) (nodeId : String) :
    Except MetricErr ℚ :=
  match e.perNodeMetrics nodeId with
  | none => .error .nodeMetricsNotFound
  | some metricSamples =>
      let chronological := (takeUpToNMostRecentMetrics metricSamples
        e.metricSamplesForSyntheticMetricCalculation syncStatusMetricMatcher).reverse
      let valid := validPairRates chronological
      if valid.length = 0 then .error .insufficientMetricSamples
      else .ok (valid.sum / (valid.length : ℚ))

/-! ## Watch loop (node.go, WatchSyncStatus) -/

/-- NodeClientConfig fields used by the watch loop (all durations in whole
seconds, exactly as the Go config ints). -/
structure NodeClientConfig where
  rpcEndpoint : String
  autoheal : Bool
  autohealSyncLatencyToleranceSeconds : Int
  autohealSyncToLiveToleranceSeconds : Int
  autohealRestartDelaySeconds : Int
  autohealInitialAllowedDelaySeconds : Int
  noNewBlocksRestartThresholdSeconds : Int
  downtimeRestartThresholdSeconds : Int
deriving DecidableEq

/-- Mutable local state of one WatchSyncStatus invocation, one value per
variable declared at the top of the Go loop. -/
structure WatchState where
  outOfSyncAutohealingInProgress : Bool
  lastRestartedByAutohealingAt : Option ℚ
  lastNewBlockObservedAt : ℚ
  lastSynchedBlockNumber : Int
  currentDowntimeStartedAt : Option ℚ
  earliestAllowedRestartTime : ℚ
deriving DecidableEq

/-- Initial watch state: `time.Now()` at loop entry is `startTime`. -/
def initWatchState (cfg : NodeClientConfig) (startTime : ℚ) : WatchState :=
  { outOfSyncAutohealingInProgress := false
    lastRestartedByAutohealingAt := none
    lastNewBlockObservedAt := startTime
    lastSynchedBlockNumber := 0
    currentDowntimeStartedAt := none
    earliestAllowedRestartTime :=
      startTime + (cfg.autohealInitialAllowedDelaySeconds : ℚ) }

/-- Environment of one ticker iteration: the two probe timestamps, the
wall-clock value returned by the later `time.Now()` calls of the iteration,
the probe result (`none` = error), and whether a `RestartBlockchainService`
attempt would succeed. -/
structure TickInput where
  statusCheckStartedAt : ℚ
  statusCheckEndedAt : ℚ
  now : ℚ
  result : Option NodeState
  restartSucceeds : Bool
deriving DecidableEq

/-- Observable actions of one ticker iteration (restart side effects, the
spawning of a StandbyNodeUntilCaughtUp task, and the log records the claims
mention). -/
inductive WatchAction where
  | restartOffline
  | restartFrozen
  | restartFailed
  | spawnHeal
  | skipHealAlreadyInProgress
  | skipOfflineRestartDelay
  | notRestartingOffline
  | skipInitialRestartBuffer
  | skipFrozenRestartDelay
  | notRestartingFrozen
deriving DecidableEq

/-- Everything one ticker iteration produces. -/
structure WatchOutput where
  state : WatchState
  uptimeMetric : UptimeMetric
  syncMetrics : Option SyncStatusMetrics
  actions : List WatchAction
deriving DecidableEq

/-- Truncation toward zero of a rational number of seconds: the effect of
Go's `int64(float64)` conversion applied to `Duration.Seconds()`. -/
def truncQ (q : ℚ) : Int :=
  if 0 ≤ q then ⌊q⌋ else -⌊-q⌋

/-- Failed-probe branch of the loop body (`err != nil`, node.go lines
94-183): set the downtime window start if unset, then, with autoheal on,
either wait out the restart delay (measured against the downtime duration),
restart, or wait for the downtime threshold. -/
def offlineTick (cfg : NodeClientConfig) (s0 : WatchState) (i : TickInput)
    (upMetric : UptimeMetric) : WatchOutput :=
  let s := if s0.currentDowntimeStartedAt = none then
      { s0 with currentDowntimeStartedAt := some i.statusCheckStartedAt }
    else s0
  if !cfg.autoheal then ⟨s, upMetric, none, []⟩
  else
    let downtimeDuration :=
      i.statusCheckStartedAt - (s.currentDowntimeStartedAt.getD i.statusCheckStartedAt)
    match s.lastRestartedByAutohealingAt with
    | some _ =>
        if downtimeDuration < (cfg.autohealRestartDelaySeconds : ℚ) then
          ⟨s, upMetric, none, [.skipOfflineRestartDelay]⟩
        else if !i.restartSucceeds then
          ⟨s, upMetric, none, [.restartFailed]⟩
        else
          ⟨{ s with
              lastRestartedByAutohealingAt := some i.now
              currentDowntimeStartedAt := none },
            upMetric, none, [.restartOffline]⟩
    | none =>
        if downtimeDuration > (cfg.downtimeRestartThresholdSeconds : ℚ) then
          if !i.restartSucceeds then
            ⟨s, upMetric, none, [.restartFailed]⟩
          else
            ⟨{ s with
                lastRestartedByAutohealingAt := some i.now
                currentDowntimeStartedAt := none },
              upMetric, none, [.restartOffline]⟩
        else ⟨s, upMetric, none, [.notRestartingOffline]⟩

/-- Sync sample built on a successful probe (node.go lines 185-196):
`seconds_behind_live` is the Go `int64` truncation of
`time.Since(latest_block_time).Seconds()`. -/
def mkSyncSample (i : TickInput) (ns : NodeState) : SyncStatusMetrics :=
  { sampledAt := i.statusCheckStartedAt
    nodeId := ns.nodeInfo.id
    syncStatus := ns.syncInfo
    sampleLatencyMilliseconds :=
      truncQ ((i.statusCheckEndedAt - i.statusCheckStartedAt) * 1000)
    secondsBehindLive := truncQ (i.now - ns.syncInfo.latestBlockTime) }

/-- Frozen-node indicator update (node.go lines 204-211): when the node has
synched a new block, remember the probe end time. -/
def newBlockUpdate (s : WatchState) (i : TickInput) (ns : NodeState) : WatchState :=
  if ns.syncInfo.latestBlockHeight > s.lastSynchedBlockNumber then
    { s with lastNewBlockObservedAt := i.statusCheckEndedAt }
  else s

/-- Rule R3 (node.go lines 214-258): above the latency tolerance, spawn a
healing task unless one is already in progress; the
`outOfSyncAutohealingInProgress` flag is the sole guard. -/
def r3Step (cfg : NodeClientConfig) (s : WatchState) (secondsBehindLive : Int) :
    WatchState × List WatchAction :=
  if cfg.autoheal then
    if secondsBehindLive > cfg.autohealSyncLatencyToleranceSeconds then
      if s.outOfSyncAutohealingInProgress then (s, [.skipHealAlreadyInProgress])
      else ({ s with outOfSyncAutohealingInProgress := true }, [.spawnHeal])
    else (s, [])
  else (s, [])

/-- Rule R2 (node.go lines 260-335): frozen-node restart with the initial
buffer and the restart-delay gate, both measured against the frozen duration;
the trailing `lastSynchedBlockNumber` update runs exactly when no `continue`
fired. -/
def frozenStep (cfg : NodeClientConfig) (s : WatchState) (i : TickInput)
    (currentBlockNumber : Int) : WatchState × List WatchAction :=
  if cfg.autoheal then
    if i.now < s.earliestAllowedRestartTime then (s, [.skipInitialRestartBuffer])
    else
      let frozenDuration := i.now - s.lastNewBlockObservedAt
      if frozenDuration > (cfg.noNewBlocksRestartThresholdSeconds : ℚ) then
        match s.lastRestartedByAutohealingAt with
        | some _ =>
            if frozenDuration < (cfg.autohealRestartDelaySeconds : ℚ) then
              (s, [.skipFrozenRestartDelay])
            else if !i.restartSucceeds then (s, [.restartFailed])
            else
              ({ s with
                  lastRestartedByAutohealingAt := some i.now
                  lastNewBlockObservedAt := i.now }, [.restartFrozen])
        | none =>
            if !i.restartSucceeds then (s, [.restartFailed])
            else
              ({ s with
                  lastRestartedByAutohealingAt := some i.now
                  lastNewBlockObservedAt := i.now }, [.restartFrozen])
      else ({ s with lastSynchedBlockNumber := currentBlockNumber }, [.notRestartingFrozen])
  else ({ s with lastSynchedBlockNumber := currentBlockNumber }, [])

/-- Successful-probe branch of the loop body (node.go lines 185-335): build
the sync sample, update the frozen-node indicator, run the out-of-sync rule
(R3) and then the frozen-restart rule (R2). -/
def onlineTick (cfg : NodeClientConfig) (s0 : WatchState) (i : TickInput)
    (ns : NodeState) (upMetric : UptimeMetric) : WatchOutput :=
  let m : SyncStatusMetrics := mkSyncSample i ns
  let s1 := newBlockUpdate s0 i ns
  let r3 := r3Step cfg s1 m.secondsBehindLive
  let fz := frozenStep cfg r3.1 i ns.syncInfo.latestBlockHeight
  ⟨fz.1, upMetric, some m, r3.2 ++ fz.2⟩

/-- One ticker iteration of WatchSyncStatus. -/
def watchStep (cfg : NodeClientConfig) (s : WatchState) (i : TickInput) :
    WatchOutput :=
  let upMetric : UptimeMetric :=
    { endpointURL := cfg.rpcEndpoint
      sampledAt := i.statusCheckStartedAt
      up := true
      rollingAveragePercentAvailable := 0 }
  match i.result with
  | none => offlineTick cfg s i { upMetric with up := false }
  | some ns => onlineTick cfg s i ns upMetric

/-- Whether an iteration performed a successful restart. -/
def restarted (o : WatchOutput) : Bool :=
  WatchAction.restartOffline ∈ o.actions || WatchAction.restartFrozen ∈ o.actions

/-- Wall-clock times of the successful restarts along a run of the loop. -/
def restartTimes (cfg : NodeClientConfig) : WatchState → List TickInput → List ℚ
  | _, [] => []
  | s, i :: rest =>
      let o := watchStep cfg s i
      (if restarted o then [i.now] else []) ++ restartTimes cfg o.state rest

/-- Well-formed tick sequence: within a tick the probe start, probe end and
later wall clock are ordered, and ticks do not travel back in time. -/
def wfTicks (startTime : ℚ) : List TickInput → Prop
  | [] => True
  | i :: rest =>
      startTime ≤ i.statusCheckStartedAt ∧ i.statusCheckStartedAt ≤ i.statusCheckEndedAt
        ∧ i.statusCheckEndedAt ≤ i.now ∧ wfTicks i.now rest

/-! ## Concurrency model for rule R3 (node.go lines 214-252, heal.go) -/

/-- State of the loop together with the number of spawned
StandbyNodeUntilCaughtUp tasks that have not finished yet. -/
structure SysState where
  ws : WatchState
  activeHealers : Nat
deriving DecidableEq

/-- Interleaved system transitions: either the watch loop runs one ticker
iteration (spawning a healing task when the iteration emits `spawnHeal`), or
one active healing task finishes, running its deferred
`outOfSyncAutohealingInProgress = false` store. -/
inductive SysStep (cfg : NodeClientConfig) : SysState → SysState → Prop where
  | tick (σ : SysState) (i : TickInput) :
      SysStep cfg σ
        ⟨(watchStep cfg σ.ws i).state,
          σ.activeHealers +
            (if WatchAction.spawnHeal ∈ (watchStep cfg σ.ws i).actions then 1 else 0)⟩
  | healFinish (σ : SysState) (n : Nat) (h : σ.activeHealers = n + 1) :
      SysStep cfg σ ⟨{ σ.ws with outOfSyncAutohealingInProgress := false }, n⟩

/-- States reachable from the start of WatchSyncStatus. -/
def ReachableSys (cfg : NodeClientConfig) (startTime : ℚ) (σ : SysState) : Prop :=
  Relation.ReflTransGen (SysStep cfg) ⟨initWatchState cfg startTime, 0⟩ σ

/-- Invariant tying the healing-task count to the guard flag. -/
def healerInvariant (σ : SysState) : Prop :=
  σ.activeHealers = (if σ.ws.outOfSyncAutohealingInProgress then 1 else 0)

/-! ## File metric sink (collect/file.go, modelled from the spec) -/

/-- Metric record as routed to the sinks.  The copy of `metric/metric.go`
under src is an earlier revision without the routing flags; the fields used
by `collect/cloudwatch.go` and `gui.go` (value, timestamp, CollectToFile,
CollectToCloudwatch) fix the current shape. -/
structure MetricRecord where
  name : String
  dimensions : List (String × String)
  value : ℚ
  timestamp : ℚ
  collectToFile : Bool
  collectToCloudwatch : Bool
deriving DecidableEq

/-- Observable state of a FileCollector: the rotation bookkeeping plus the
records appended to the current file and the rotated-away files. -/
structure FileCollectorState where
  currentFileOpenedAt : ℚ
  fileRotationInterval : ℚ
  currentFileRecords : List MetricRecord
  rotatedFiles : List (ℚ × List MetricRecord)
deriving DecidableEq

/-- Modelled from the spec: `FileCollector.Collect` of the current
`collect/file.go`, which is absent from src (the copy under src is an earlier
revision predating the `CollectToFile` routing flag).  Spec: "If
`metric.collect_to_file` is false, the record is ignored (no-op, no error)";
otherwise, under the file lock, rotate when `now - opened_at` has reached the
rotation interval and append the serialized record. -/
def fileCollect (fc : FileCollectorState) (now : ℚ) (m : MetricRecord) :
    FileCollectorState × Option String :=
  if !m.collectToFile then (fc, none)
  else
    let fc1 :=
      if now - fc.currentFileOpenedAt ≥ fc.fileRotationInterval then
        { fc with currentFileOpenedAt := now
                  currentFileRecords := []
                  rotatedFiles := fc.rotatedFiles
                    ++ [(fc.currentFileOpenedAt, fc.currentFileRecords)] }
      else fc
    ({ fc1 with currentFileRecords := fc1.currentFileRecords ++ [m] }, none)

/-! ## Derived forms and concrete instances used by the theorems -/

/-- Sequence of AddSample calls for one key, oldest first. -/
def addSamples (e : Endpoint) (k : String) (samples : List NodeMetrics) : Endpoint :=
  samples.foldl (fun acc s => acc.addSample k s) e

/-- Store entry carrying only a sync-status sample. -/
def syncEntry (nodeId : String) (height : Int) (t : ℚ) : NodeMetrics :=
  { syncStatusMetrics := some
      { nodeId := nodeId
        sampleLatencyMilliseconds := 0
        syncStatus := { latestBlockHeight := height, latestBlockTime := t, catchingUp := false }
        secondsBehindLive := 0
        sampledAt := t }
    uptimeMetric := none }

/-- Store entry carrying only an uptime sample. -/
def upEntry (url : String) (u : Bool) (t : ℚ) : NodeMetrics :=
  { syncStatusMetrics := none
    uptimeMetric := some
      { endpointURL := url, up := u, sampledAt := t, rollingAveragePercentAvailable := 0 } }

/-- Store of the hash-rate scenario: four sync samples for node N at seconds
0,1,2,3 with heights 3,6,10,15. -/
def exHashRateEndpoint : Endpoint :=
  addSamples (newEndpoint ⟨"E", 0, 0⟩) "N"
    [syncEntry "N" 3 0, syncEntry "N" 6 1, syncEntry "N" 10 2, syncEntry "N" 15 3]

/-- Store refuting the zero-delta skip policy: two sync samples share second 0
(heights 3 and 3), one more at second 1 with height 5. -/
def exZeroDeltaEndpoint : Endpoint :=
  addSamples (newEndpoint ⟨"E", 0, 0⟩) "N"
    [syncEntry "N" 3 0, syncEntry "N" 3 0, syncEntry "N" 5 1]

/-- Store of the uptime scenario: an up sample then a down sample for E. -/
def exUptimeEndpoint : Endpoint :=
  addSamples (newEndpoint ⟨"E", 0, 0⟩) "E" [upEntry "E" true 0, upEntry "E" false 1]

/-- Probe result reporting height `h` whose latest block time is `bt`. -/
def probeResult (h : Int) (bt : ℚ) : NodeState :=
  { nodeInfo := { id := "N", moniker := "M" }
    syncInfo := { latestBlockHeight := h, latestBlockTime := bt, catchingUp := false } }

/-- Successful tick at whole second `t`. -/
def upTick (t : ℚ) (h : Int) (bt : ℚ) : TickInput :=
  { statusCheckStartedAt := t, statusCheckEndedAt := t, now := t
    result := some (probeResult h bt), restartSucceeds := true }

/-- Failed tick at whole second `t`. -/
def downTick (t : ℚ) : TickInput :=
  { statusCheckStartedAt := t, statusCheckEndedAt := t, now := t
    result := none, restartSucceeds := true }

/-- Autoheal configuration of the restart-separation scenario: offline
threshold 3s, frozen threshold 1s, restart delay 10s, no initial buffer. -/
def exRestartCfg : NodeClientConfig :=
  { rpcEndpoint := "E"
    autoheal := true
    autohealSyncLatencyToleranceSeconds := 1000
    autohealSyncToLiveToleranceSeconds := 12
    autohealRestartDelaySeconds := 10
    autohealInitialAllowedDelaySeconds := 0
    noNewBlocksRestartThresholdSeconds := 1
    downtimeRestartThresholdSeconds := 3 }

/-- Tick sequence of the restart-separation scenario: one healthy tick, the
node goes offline and is restarted at second 6 by the offline rule, then
reappears frozen at second 11 and is restarted again by the frozen rule. -/
def exRestartTicks : List TickInput :=
  [upTick 1 10 1, downTick 2, downTick 6, upTick 11 10 11]

/-- Configuration with autoheal enabled and no tolerance for the downtime
or out-of-sync scenarios that must stay quiet. -/
def exQuietCfg : NodeClientConfig :=
  { rpcEndpoint := "E"
    autoheal := true
    autohealSyncLatencyToleranceSeconds := 1000
    autohealSyncToLiveToleranceSeconds := 12
    autohealRestartDelaySeconds := 2700
    autohealInitialAllowedDelaySeconds := 0
    noNewBlocksRestartThresholdSeconds := 300
    downtimeRestartThresholdSeconds := 300 }

/-- Watch state with an open downtime window that started at second 1. -/
def exDowntimeState : WatchState :=
  { outOfSyncAutohealingInProgress := false
    lastRestartedByAutohealingAt := none
    lastNewBlockObservedAt := 0
    lastSynchedBlockNumber := 0
    currentDowntimeStartedAt := some 1
    earliestAllowedRestartTime := 0 }

/-- Successful tick at second 5 whose node-reported block time lies 2 seconds
in the future of the local clock. -/
def exAheadTick : TickInput := upTick 5 10 7

/-- Autoheal configuration with out-of-sync tolerance 10 seconds. -/
def exHealCfg : NodeClientConfig :=
  { rpcEndpoint := "E"
    autoheal := true
    autohealSyncLatencyToleranceSeconds := 10
    autohealSyncToLiveToleranceSeconds := 12
    autohealRestartDelaySeconds := 2700
    autohealInitialAllowedDelaySeconds := 0
    noNewBlocksRestartThresholdSeconds := 300
    downtimeRestartThresholdSeconds := 300 }

/-- Watch state with a healing task already in progress. -/
def exHealingState : WatchState :=
  { outOfSyncAutohealingInProgress := true
    lastRestartedByAutohealingAt := none
    lastNewBlockObservedAt := 90
    lastSynchedBlockNumber := 5
    currentDowntimeStartedAt := none
    earliestAllowedRestartTime := 0 }

/-- Successful tick at second 100 reporting a block minted at second 80,
hence 20 seconds behind live. -/
def exBehindTick : TickInput := upTick 100 5 80

/-! # Theorems -/

/-! ## Store lemmas -/

theorem addSample_samplesToKeep (e : Endpoint) (k : String) (m : NodeMetrics) :
    (e.addSample k m).metricSamplesToKeepPerNode = e.metricSamplesToKeepPerNode := by
  unfold Endpoint.addSample
  cases h : e.perNodeMetrics k <;> simp [h]

theorem addSample_window (e : Endpoint) (k : String) (m : NodeMetrics) :
    (e.addSample k m).metricSamplesForSyntheticMetricCalculation =
      e.metricSamplesForSyntheticMetricCalculation := by
  unfold Endpoint.addSample
  cases h : e.perNodeMetrics k <;> simp [h]

theorem addSample_lookup_self (e : Endpoint) (k : String) (m : NodeMetrics) :
    (e.addSample k m).perNodeMetrics k =
      some ((match e.perNodeMetrics k with
        | none => ([] : List NodeMetrics)
        | some currentMetrics =>
            if (currentMetrics.length : Int) = e.metricSamplesToKeepPerNode then
              currentMetrics.drop 1
            else currentMetrics) ++ [m]) := by
  unfold Endpoint.addSample
  cases h : e.perNodeMetrics k <;> simp [h, Function.update_same]

theorem newEndpoint_keep_pos (cfg : EndpointConfig) :
    1 ≤ (newEndpoint cfg).metricSamplesToKeepPerNode := by
  unfold newEndpoint DefaultMetricSamplesToKeepPerNode
  dsimp only
  split <;> omega

theorem addSamples_content (k : String) (samples : List NodeMetrics) :
    ∀ (e : Endpoint) (l : List NodeMetrics),
      e.perNodeMetrics k = some l →
      1 ≤ e.metricSamplesToKeepPerNode →
      (l.length : Int) ≤ e.metricSamplesToKeepPerNode →
      (addSamples e k samples).perNodeMetrics k =
        some ((l ++ samples).drop
          (l.length + samples.length - e.metricSamplesToKeepPerNode.toNat)) := by
  induction samples with
  | nil =>
      intro e l hl hcap hlen
      have h0 : l.length + ([] : List NodeMetrics).length
          - e.metricSamplesToKeepPerNode.toNat = 0 := by
        simp only [List.length_nil]
        omega
      rw [h0]
      simpa [addSamples] using hl
  | cons s rest ih =>
      intro e l hl hcap hlen
      have hstep : (e.addSample k s).perNodeMetrics k =
          some ((if (l.length : Int) = e.metricSamplesToKeepPerNode then
            l.drop 1 else l) ++ [s]) := by
        rw [addSample_lookup_self, hl]
      have hkeep := addSample_samplesToKeep e k s
      have hmain : addSamples e k (s :: rest) = addSamples (e.addSample k s) k rest := by
        simp [addSamples]
      by_cases hc : (l.length : Int) = e.metricSamplesToKeepPerNode
      · have hl1 : (e.addSample k s).perNodeMetrics k = some (l.drop 1 ++ [s]) := by
          rw [hstep, if_pos hc]
        have hlen1 : ((l.drop 1 ++ [s]).length : Int)
            ≤ (e.addSample k s).metricSamplesToKeepPerNode := by
          rw [hkeep]
          simp only [List.length_append, List.length_drop, List.length_singleton]
          omega
        have hres := ih (e.addSample k s) (l.drop 1 ++ [s]) hl1 (by rw [hkeep]; exact hcap) hlen1
        rw [hmain, hres, hkeep]
        have hamtL : (l.drop 1 ++ [s]).length + rest.length
            - e.metricSamplesToKeepPerNode.toNat = rest.length := by
          simp only [List.length_append, List.length_drop, List.length_cons,
            List.length_nil]
          omega
        have hamtR : l.length + (s :: rest).length
            - e.metricSamplesToKeepPerNode.toNat = 1 + rest.length := by
          simp only [List.length_cons]
          omega
        have hlist : (l.drop 1 ++ [s]) ++ rest = l.drop 1 ++ s :: rest := by simp
        rw [hamtL, hamtR, hlist, ← List.drop_drop rest.length 1 (l ++ s :: rest)]
        rw [List.drop_append_of_le_length (show 1 ≤ l.length by omega)]
      · have hl1 : (e.addSample k s).perNodeMetrics k = some (l ++ [s]) := by
          rw [hstep, if_neg hc]
        have hlen1 : ((l ++ [s]).length : Int)
            ≤ (e.addSample k s).metricSamplesToKeepPerNode := by
          rw [hkeep]
          simp only [List.length_append, List.length_cons, List.length_nil]
          omega
        have hres := ih (e.addSample k s) (l ++ [s]) hl1 (by rw [hkeep]; exact hcap) hlen1
        rw [hmain, hres, hkeep]
        have hamt : (l ++ [s]).length + rest.length
            - e.metricSamplesToKeepPerNode.toNat
            = l.length + (s :: rest).length - e.metricSamplesToKeepPerNode.toNat := by
          simp only [List.length_append, List.length_cons, List.length_nil]
          omega
        have hlist : (l ++ [s]) ++ rest = l ++ s :: rest := by simp
        rw [hamt, hlist]

/-- C2.  Bounded FIFO ring invariant of the metric store: after any sequence
of n AddSample calls for key k on a fresh store, the stored sequence for k
has length min(n, max_samples_per_node) and consists of exactly the most
recently added min(n, max_samples_per_node) samples in insertion order (at
capacity the oldest element is dropped before the append). -/
theorem claim_c2_store_fifo (cfg : EndpointConfig) (k : String) (samples : List NodeMetrics) :
    (samples = [] → (addSamples (newEndpoint cfg) k samples).perNodeMetrics k = none) ∧
    (samples ≠ [] → (addSamples (newEndpoint cfg) k samples).perNodeMetrics k =
      some (samples.drop
        (samples.length - (newEndpoint cfg).metricSamplesToKeepPerNode.toNat))) ∧
    (((addSamples (newEndpoint cfg) k samples).perNodeMetrics k).getD []).length =
      min samples.length (newEndpoint cfg).metricSamplesToKeepPerNode.toNat := by
  have hcap := newEndpoint_keep_pos cfg
  cases samples with
  | nil =>
      refine ⟨fun _ => ?_, fun h => absurd rfl h, ?_⟩
      · simp [addSamples, newEndpoint]
      · simp [addSamples, newEndpoint]
  | cons s rest =>
      have hnone : (newEndpoint cfg).perNodeMetrics k = none := rfl
      have hfirst : ((newEndpoint cfg).addSample k s).perNodeMetrics k = some [s] := by
        rw [addSample_lookup_self, hnone]
        rfl
      have hkeep := addSample_samplesToKeep (newEndpoint cfg) k s
      have hres := addSamples_content k rest ((newEndpoint cfg).addSample k s) [s] hfirst
        (by rw [hkeep]; exact hcap)
        (by rw [hkeep]; simpa using hcap)
      have hmain : addSamples (newEndpoint cfg) k (s :: rest)
          = addSamples ((newEndpoint cfg).addSample k s) k rest := by
        simp [addSamples]
      rw [hkeep] at hres
      have hcontent : (addSamples (newEndpoint cfg) k (s :: rest)).perNodeMetrics k =
          some ((s :: rest).drop
            ((s :: rest).length - (newEndpoint cfg).metricSamplesToKeepPerNode.toNat)) := by
        rw [hmain, hres]
        have hamt : ([s] : List NodeMetrics).length + rest.length
            - (newEndpoint cfg).metricSamplesToKeepPerNode.toNat
            = (s :: rest).length - (newEndpoint cfg).metricSamplesToKeepPerNode.toNat := by
          simp only [List.length_cons, List.length_nil]
          omega
        have hlist : ([s] : List NodeMetrics) ++ rest = s :: rest := by simp
        rw [hamt, hlist]
      refine ⟨fun h => (nomatch h), fun _ => hcontent, ?_⟩
      rw [hcontent]
      simp only [Option.getD_some, List.length_drop, List.length_cons]
      omega

/-- Witness for C2: with capacity 1, adding s1 then s2 leaves exactly [s2]. -/
theorem claim_c2_store_fifo_witness :
    (addSamples (newEndpoint ⟨"E", 1, 0⟩) "N"
      [syncEntry "N" 1 0, syncEntry "N" 2 1]).perNodeMetrics "N"
      = some [syncEntry "N" 2 1] := by
  have h := (claim_c2_store_fifo ⟨"E", 1, 0⟩ "N"
    [syncEntry "N" 1 0, syncEntry "N" 2 1]).2.1 (by simp)
  rw [h]
  norm_num [newEndpoint]

/-! ## Pairwise-rate lemmas -/

theorem sumBlockRates_eq_pairRates :
    ∀ (l : List NodeMetrics) (a : NodeMetrics),
      sumBlockRates (syncHeight a) (syncSampledAt a) l = (pairRates (a :: l)).sum := by
  intro l
  induction l with
  | nil => intro a; simp [sumBlockRates, pairRates]
  | cons b rest ih =>
      intro a
      have hstep : sumBlockRates (syncHeight a) (syncSampledAt a) (b :: rest)
          = ((syncHeight b - syncHeight a : Int) : ℚ) / (syncSampledAt b - syncSampledAt a)
            + sumBlockRates (syncHeight b) (syncSampledAt b) rest := rfl
      rw [hstep, ih b]
      have hpair : pairRates (a :: b :: rest) = pairRate a b :: pairRates (b :: rest) := rfl
      rw [hpair, List.sum_cons, pairRate]

theorem pairRate_symm (a b : NodeMetrics) : pairRate a b = pairRate b a := by
  unfold pairRate
  rw [show syncHeight a - syncHeight b = -(syncHeight b - syncHeight a) from by ring]
  rw [show syncSampledAt a - syncSampledAt b = -(syncSampledAt b - syncSampledAt a) from by ring]
  push_cast
  rw [neg_div_neg_eq]

theorem pairRates_concat :
    ∀ (l : List NodeMetrics) (a b : NodeMetrics),
      pairRates ((l ++ [a]) ++ [b]) = pairRates (l ++ [a]) ++ [pairRate a b] := by
  intro l
  induction l with
  | nil => intro a b; simp [pairRates]
  | cons x xs ih =>
      intro a b
      cases xs with
      | nil => simp [pairRates]
      | cons y ys =>
          have h1 : ((x :: y :: ys) ++ [a]) ++ [b]
              = x :: y :: ((ys ++ [a]) ++ [b]) := by simp
          have h2 : (x :: y :: ys) ++ [a] = x :: y :: (ys ++ [a]) := by simp
          rw [h1, h2]
          have h3 : pairRates (x :: y :: ((ys ++ [a]) ++ [b]))
              = pairRate x y :: pairRates (y :: ((ys ++ [a]) ++ [b])) := rfl
          have h4 : pairRates (x :: y :: (ys ++ [a]))
              = pairRate x y :: pairRates (y :: (ys ++ [a])) := rfl
          rw [h3, h4]
          have h5 : y :: ((ys ++ [a]) ++ [b]) = ((y :: ys) ++ [a]) ++ [b] := by simp
          have h6 : y :: (ys ++ [a]) = (y :: ys) ++ [a] := by simp
          rw [h5, h6, ih a b]
          simp

theorem pairRates_reverse :
    ∀ (l : List NodeMetrics), pairRates l.reverse = (pairRates l).reverse := by
  intro l
  induction l with
  | nil => simp [pairRates]
  | cons a xs ih =>
      cases xs with
      | nil => simp [pairRates]
      | cons y ys =>
          have hrev : (a :: y :: ys).reverse = (ys.reverse ++ [y]) ++ [a] := by simp
          rw [hrev, pairRates_concat ys.reverse y a]
          have hrev2 : ys.reverse ++ [y] = (y :: ys).reverse := by simp
          rw [hrev2, ih]
          have hpair : pairRates (a :: y :: ys) = pairRate a y :: pairRates (y :: ys) := rfl
          rw [hpair, List.reverse_cons, pairRate_symm y a]

/-! ## Claim C1: hash-rate contract -/

/-- C1.  Contract of CalculateNodeHashRatePerSecond: an absent key returns
the not-found error; a present key with at most one selected sync sample
returns the insufficient-samples error; otherwise the result is the mean of
the k-1 pairwise block rates (height delta over time delta in seconds) of
the k selected samples taken in chronological order. -/
theorem claim_c1_hash_rate_contract (e : Endpoint) (nodeId : String) :
    (e.perNodeMetrics nodeId = none →
      e.calculateNodeHashRatePerSecond nodeId = .error .nodeMetricsNotFound) ∧
    (∀ l, e.perNodeMetrics nodeId = some l →
      (takeUpToNMostRecentMetrics l e.metricSamplesForSyntheticMetricCalculation
        syncStatusMetricMatcher).length ≤ 1 →
      e.calculateNodeHashRatePerSecond nodeId = .error .insufficientMetricSamples) ∧
    (∀ l, e.perNodeMetrics nodeId = some l →
      2 ≤ (takeUpToNMostRecentMetrics l e.metricSamplesForSyntheticMetricCalculation
        syncStatusMetricMatcher).length →
      e.calculateNodeHashRatePerSecond nodeId =
        .ok ((pairRates (takeUpToNMostRecentMetrics l
            e.metricSamplesForSyntheticMetricCalculation syncStatusMetricMatcher).reverse).sum
          / (((takeUpToNMostRecentMetrics l e.metricSamplesForSyntheticMetricCalculation
            syncStatusMetricMatcher).length - 1 : ℕ) : ℚ))) := by
  refine ⟨?_, ?_, ?_⟩
  · intro h
    unfold Endpoint.calculateNodeHashRatePerSecond
    rw [h]
  · intro l hl hlen
    unfold Endpoint.calculateNodeHashRatePerSecond
    rw [hl]
    dsimp only
    rcases htake : takeUpToNMostRecentMetrics l
        e.metricSamplesForSyntheticMetricCalculation syncStatusMetricMatcher
      with _ | ⟨s0, _ | ⟨s1, rest⟩⟩
    · rfl
    · rfl
    · rw [htake] at hlen
      simp only [List.length_cons] at hlen
      omega
  · intro l hl hlen
    unfold Endpoint.calculateNodeHashRatePerSecond
    rw [hl]
    dsimp only
    rcases htake : takeUpToNMostRecentMetrics l
        e.metricSamplesForSyntheticMetricCalculation syncStatusMetricMatcher
      with _ | ⟨s0, _ | ⟨s1, rest⟩⟩
    · rw [htake] at hlen
      simp at hlen
    · rw [htake] at hlen
      simp at hlen
    · dsimp only
      congr 1
      rw [sumBlockRates_eq_pairRates (s1 :: rest) s0]
      rw [pairRates_reverse (s0 :: s1 :: rest), List.sum_reverse]

/-- Witness for C1: sync samples at seconds 0,1,2,3 with heights 3,6,10,15
give hash rate 4.0, and a missing key gives the not-found error. -/
theorem claim_c1_hash_rate_witness :
    exHashRateEndpoint.calculateNodeHashRatePerSecond "N" = .ok 4 ∧
    (newEndpoint ⟨"E", 0, 0⟩).calculateNodeHashRatePerSecond "N"
      = .error .nodeMetricsNotFound := by
  constructor
  · have hlook : exHashRateEndpoint.perNodeMetrics "N" =
        some [syncEntry "N" 3 0, syncEntry "N" 6 1, syncEntry "N" 10 2, syncEntry "N" 15 3] := by
      norm_num [exHashRateEndpoint, addSamples, Endpoint.addSample, newEndpoint,
        DefaultMetricSamplesToKeepPerNode]
    have hwin : exHashRateEndpoint.metricSamplesForSyntheticMetricCalculation = 60 := by
      norm_num [exHashRateEndpoint, addSamples, Endpoint.addSample, newEndpoint,
        DefaultMetricSamplesForSyntheticMetricCalculation]
    have htake : takeUpToNMostRecentMetrics
        [syncEntry "N" 3 0, syncEntry "N" 6 1, syncEntry "N" 10 2, syncEntry "N" 15 3]
        (60 : Int) syncStatusMetricMatcher
        = [syncEntry "N" 15 3, syncEntry "N" 10 2, syncEntry "N" 6 1, syncEntry "N" 3 0] := by
      norm_num [takeUpToNMostRecentMetrics, reverseNodeMetrics, takeUpToNAux,
        syncStatusMetricMatcher, syncEntry]
    have h := (claim_c1_hash_rate_contract exHashRateEndpoint "N").2.2
      [syncEntry "N" 3 0, syncEntry "N" 6 1, syncEntry "N" 10 2, syncEntry "N" 15 3]
      hlook (by rw [hwin, htake]; norm_num)
    rw [h, hwin, htake]
    norm_num [pairRates, pairRate, syncHeight, syncSampledAt, syncEntry]
  · exact (claim_c1_hash_rate_contract (newEndpoint ⟨"E", 0, 0⟩) "N").1 rfl

/-! ## Claim C3: the zero-delta skip policy -/

/-- C3 counterexample.  Three sync samples, the two oldest sharing second 0
with equal heights, the newest one second later and two blocks higher.  The
skip policy of the claim would discard the zero-delta pair and report the
single valid rate 2; the code keeps the pair in the denominator and reports
1 (in exact arithmetic, where the zero-divisor term contributes 0; in Go
float arithmetic the same term is 0.0/0.0 = NaN, which equals 2 even less).
Hence the claim that the code skips such pairs is false. -/
theorem claim_c3_skip_policy_counterexample :
    exZeroDeltaEndpoint.calculateNodeHashRatePerSecond "N" = .ok 1 ∧
    exZeroDeltaEndpoint.skipPolicyHashRatePerSecond "N" = .ok 2 ∧
    exZeroDeltaEndpoint.calculateNodeHashRatePerSecond "N"
      ≠ exZeroDeltaEndpoint.skipPolicyHashRatePerSecond "N" := by
  have hlook : exZeroDeltaEndpoint.perNodeMetrics "N" =
      some [syncEntry "N" 3 0, syncEntry "N" 3 0, syncEntry "N" 5 1] := by
    norm_num [exZeroDeltaEndpoint, addSamples, Endpoint.addSample, newEndpoint,
      DefaultMetricSamplesToKeepPerNode]
  have hwin : exZeroDeltaEndpoint.metricSamplesForSyntheticMetricCalculation = 60 := by
    norm_num [exZeroDeltaEndpoint, addSamples, Endpoint.addSample, newEndpoint,
      DefaultMetricSamplesForSyntheticMetricCalculation]
  have htake : takeUpToNMostRecentMetrics
      [syncEntry "N" 3 0, syncEntry "N" 3 0, syncEntry "N" 5 1] (60 : Int)
      syncStatusMetricMatcher
      = [syncEntry "N" 5 1, syncEntry "N" 3 0, syncEntry "N" 3 0] := by
    norm_num [takeUpToNMostRecentMetrics, reverseNodeMetrics, takeUpToNAux,
      syncStatusMetricMatcher, syncEntry]
  have h1 : exZeroDeltaEndpoint.calculateNodeHashRatePerSecond "N" = .ok 1 := by
    unfold Endpoint.calculateNodeHashRatePerSecond
    rw [hlook]
    dsimp only
    rw [hwin, htake]
    norm_num [sumBlockRates, syncHeight, syncSampledAt, syncEntry]
  have h2 : exZeroDeltaEndpoint.skipPolicyHashRatePerSecond "N" = .ok 2 := by
    unfold Endpoint.skipPolicyHashRatePerSecond
    rw [hlook]
    dsimp only
    rw [hwin, htake]
    norm_num [validPairRates, pairRate, syncHeight, syncSampledAt, syncEntry]
  refine ⟨h1, h2, ?_⟩
  rw [h1, h2]
  simp

/-- C3 amended.  The code skips nothing: whenever at least two sync samples
are selected, CalculateNodeHashRatePerSecond returns a value whose sum ranges
over every adjacent pair (zero or negative time deltas included; in exact
arithmetic a zero-delta pair contributes x/0 = 0, in Go float arithmetic a
non-finite value) and whose denominator is always k-1; the
insufficient-samples error is never produced on account of degenerate
pairs. -/
theorem claim_c3_no_skip_amended (e : Endpoint) (nodeId : String) :
    ∀ l, e.perNodeMetrics nodeId = some l →
      2 ≤ (takeUpToNMostRecentMetrics l e.metricSamplesForSyntheticMetricCalculation
        syncStatusMetricMatcher).length →
      e.calculateNodeHashRatePerSecond nodeId =
        .ok ((pairRates (takeUpToNMostRecentMetrics l
            e.metricSamplesForSyntheticMetricCalculation syncStatusMetricMatcher)).sum
          / (((takeUpToNMostRecentMetrics l e.metricSamplesForSyntheticMetricCalculation
            syncStatusMetricMatcher).length - 1 : ℕ) : ℚ)) := by
  intro l hl hlen
  unfold Endpoint.calculateNodeHashRatePerSecond
  rw [hl]
  dsimp only
  rcases htake : takeUpToNMostRecentMetrics l
      e.metricSamplesForSyntheticMetricCalculation syncStatusMetricMatcher
    with _ | ⟨s0, _ | ⟨s1, rest⟩⟩
  · rw [htake] at hlen
    simp at hlen
  · rw [htake] at hlen
    simp at hlen
  · dsimp only
    congr 1
    rw [sumBlockRates_eq_pairRates (s1 :: rest) s0]

/-- Witness for the amended C3 at the zero-delta store: the value 1 is
returned, with the degenerate pair still counted in the denominator. -/
theorem claim_c3_no_skip_amended_witness :
    exZeroDeltaEndpoint.calculateNodeHashRatePerSecond "N" = .ok 1 := by
  have hlook : exZeroDeltaEndpoint.perNodeMetrics "N" =
      some [syncEntry "N" 3 0, syncEntry "N" 3 0, syncEntry "N" 5 1] := by
    norm_num [exZeroDeltaEndpoint, addSamples, Endpoint.addSample, newEndpoint,
      DefaultMetricSamplesToKeepPerNode]
  have hwin : exZeroDeltaEndpoint.metricSamplesForSyntheticMetricCalculation = 60 := by
    norm_num [exZeroDeltaEndpoint, addSamples, Endpoint.addSample, newEndpoint,
      DefaultMetricSamplesForSyntheticMetricCalculation]
  have htake : takeUpToNMostRecentMetrics
      [syncEntry "N" 3 0, syncEntry "N" 3 0, syncEntry "N" 5 1] (60 : Int)
      syncStatusMetricMatcher
      = [syncEntry "N" 5 1, syncEntry "N" 3 0, syncEntry "N" 3 0] := by
    norm_num [takeUpToNMostRecentMetrics, reverseNodeMetrics, takeUpToNAux,
      syncStatusMetricMatcher, syncEntry]
  have h := claim_c3_no_skip_amended exZeroDeltaEndpoint "N"
    [syncEntry "N" 3 0, syncEntry "N" 3 0, syncEntry "N" 5 1]
    hlook (by rw [hwin, htake]; norm_num)
  rw [h, hwin, htake]
  norm_num [pairRates, pairRate, syncHeight, syncSampledAt, syncEntry]

/-! ## Claim C4: uptime contract -/

theorem countAvailabilityPeriods_eq_countP (l : List NodeMetrics) :
    countAvailabilityPeriods l = (l.countP upFlag : ℚ) := by
  induction l with
  | nil => simp [countAvailabilityPeriods]
  | cons a rest ih =>
      rw [show countAvailabilityPeriods (a :: rest)
          = (if upFlag a then 1 else 0) + countAvailabilityPeriods rest from rfl]
      rw [ih, List.countP_cons]
      cases h : upFlag a
      · push_cast
        simp [h]
      · push_cast
        simp [h]
        ring

/-- C4.  Contract of CalculateUptime: an absent key returns the not-found
error; zero selected uptime samples return the insufficient-samples error;
otherwise the result is the number of up samples over the number k of
selected samples, and every returned value lies in the closed interval
from 0 to 1. -/
theorem claim_c4_uptime_contract (e : Endpoint) (url : String) :
    (e.perNodeMetrics url = none → e.calculateUptime url = .error .nodeMetricsNotFound) ∧
    (∀ l, e.perNodeMetrics url = some l →
      (takeUpToNMostRecentMetrics l e.metricSamplesForSyntheticMetricCalculation
        uptimeMetricMatcher).length = 0 →
      e.calculateUptime url = .error .insufficientMetricSamples) ∧
    (∀ l, e.perNodeMetrics url = some l →
      1 ≤ (takeUpToNMostRecentMetrics l e.metricSamplesForSyntheticMetricCalculation
        uptimeMetricMatcher).length →
      e.calculateUptime url = .ok
        (((takeUpToNMostRecentMetrics l e.metricSamplesForSyntheticMetricCalculation
            uptimeMetricMatcher).countP upFlag : ℚ)
          / ((takeUpToNMostRecentMetrics l e.metricSamplesForSyntheticMetricCalculation
            uptimeMetricMatcher).length : ℚ))) ∧
    (∀ q, e.calculateUptime url = .ok q → 0 ≤ q ∧ q ≤ 1) := by
  have hval : ∀ l, e.perNodeMetrics url = some l →
      1 ≤ (takeUpToNMostRecentMetrics l e.metricSamplesForSyntheticMetricCalculation
        uptimeMetricMatcher).length →
      e.calculateUptime url = .ok
        (((takeUpToNMostRecentMetrics l e.metricSamplesForSyntheticMetricCalculation
            uptimeMetricMatcher).countP upFlag : ℚ)
          / ((takeUpToNMostRecentMetrics l e.metricSamplesForSyntheticMetricCalculation
            uptimeMetricMatcher).length : ℚ)) := by
    intro l hl hlen
    unfold Endpoint.calculateUptime
    rw [hl]
    dsimp only
    rw [if_neg (by omega)]
    rw [countAvailabilityPeriods_eq_countP]
  refine ⟨?_, ?_, hval, ?_⟩
  · intro h
    unfold Endpoint.calculateUptime
    rw [h]
  · intro l hl hlen
    unfold Endpoint.calculateUptime
    rw [hl]
    dsimp only
    rw [if_pos hlen]
  · intro q hq
    rcases hl : e.perNodeMetrics url with _ | l
    · unfold Endpoint.calculateUptime at hq
      rw [hl] at hq
      exact absurd hq (by simp)
    · by_cases hlen : (takeUpToNMostRecentMetrics l
          e.metricSamplesForSyntheticMetricCalculation uptimeMetricMatcher).length = 0
      · unfold Endpoint.calculateUptime at hq
        rw [hl] at hq
        dsimp only at hq
        rw [if_pos hlen] at hq
        exact absurd hq (by simp)
      · have h := hval l hl (by omega)
        rw [h] at hq
        have hq2 : (((takeUpToNMostRecentMetrics l
            e.metricSamplesForSyntheticMetricCalculation uptimeMetricMatcher).countP upFlag : ℚ)
            / ((takeUpToNMostRecentMetrics l
              e.metricSamplesForSyntheticMetricCalculation uptimeMetricMatcher).length : ℚ)) = q :=
          Except.ok.inj hq
        have hlenpos : (0 : ℚ) < ((takeUpToNMostRecentMetrics l
            e.metricSamplesForSyntheticMetricCalculation uptimeMetricMatcher).length : ℚ) := by
          have hp : 0 < (takeUpToNMostRecentMetrics l
              e.metricSamplesForSyntheticMetricCalculation uptimeMetricMatcher).length := by
            omega
          exact_mod_cast hp
        rw [← hq2]
        constructor
        · positivity
        · rw [div_le_one hlenpos]
          exact_mod_cast List.countP_le_length upFlag

/-- Witness for C4: an up sample then a down sample give uptime one half,
inside the unit interval. -/
theorem claim_c4_uptime_witness :
    exUptimeEndpoint.calculateUptime "E" = .ok (1 / 2) ∧
    (0 : ℚ) ≤ 1 / 2 ∧ (1 / 2 : ℚ) ≤ 1 := by
  have hlook : exUptimeEndpoint.perNodeMetrics "E" =
      some [upEntry "E" true 0, upEntry "E" false 1] := by
    norm_num [exUptimeEndpoint, addSamples, Endpoint.addSample, newEndpoint,
      DefaultMetricSamplesToKeepPerNode]
  have hwin : exUptimeEndpoint.metricSamplesForSyntheticMetricCalculation = 60 := by
    norm_num [exUptimeEndpoint, addSamples, Endpoint.addSample, newEndpoint,
      DefaultMetricSamplesForSyntheticMetricCalculation]
  have htake : takeUpToNMostRecentMetrics
      [upEntry "E" true 0, upEntry "E" false 1] (60 : Int) uptimeMetricMatcher
      = [upEntry "E" false 1, upEntry "E" true 0] := by
    norm_num [takeUpToNMostRecentMetrics, reverseNodeMetrics, takeUpToNAux,
      uptimeMetricMatcher, upEntry]
  have hok := (claim_c4_uptime_contract exUptimeEndpoint "E").2.2.1
    [upEntry "E" true 0, upEntry "E" false 1] hlook (by rw [hwin, htake]; norm_num)
  have hbounds := (claim_c4_uptime_contract exUptimeEndpoint "E").2.2.2
  refine ⟨?_, by norm_num, by norm_num⟩
  rw [hok, hwin, htake]
  norm_num [List.countP, List.countP.go, upFlag, upEntry]

/-! ## Claim C10: read-only calculations and the AddSample frame -/

/-- C10.  Frame and footprint of the metric store: AddSample for key k leaves
the sequence of every other key untouched, and the two synthetic calculations
read nothing but the per-key sequence and the sample window, so two stores
agreeing there produce identical results.  In the embedding both calculations
are pure functions of the store (mirroring the Go code, whose only writes go
to the fresh list built by reverseNodeMetrics inside
takeUpToNMostRecentMetrics), so the store is identical before and after a
calculation by construction. -/
theorem claim_c10_store_frame :
    (∀ (e : Endpoint) (k : String) (m : NodeMetrics) (other : String), other ≠ k →
      (e.addSample k m).perNodeMetrics other = e.perNodeMetrics other) ∧
    (∀ (e1 e2 : Endpoint) (nodeId : String),
      e1.perNodeMetrics nodeId = e2.perNodeMetrics nodeId →
      e1.metricSamplesForSyntheticMetricCalculation
        = e2.metricSamplesForSyntheticMetricCalculation →
      e1.calculateNodeHashRatePerSecond nodeId = e2.calculateNodeHashRatePerSecond nodeId) ∧
    (∀ (e1 e2 : Endpoint) (url : String),
      e1.perNodeMetrics url = e2.perNodeMetrics url →
      e1.metricSamplesForSyntheticMetricCalculation
        = e2.metricSamplesForSyntheticMetricCalculation →
      e1.calculateUptime url = e2.calculateUptime url) := by
  refine ⟨?_, ?_, ?_⟩
  · intro e k m other hne
    unfold Endpoint.addSample
    cases h : e.perNodeMetrics k
    · simp only
      rw [Function.update_noteq hne]
    · simp only
      rw [Function.update_noteq hne]
  · intro e1 e2 nodeId hpm hwin
    unfold Endpoint.calculateNodeHashRatePerSecond
    rw [hpm, hwin]
  · intro e1 e2 url hpm hwin
    unfold Endpoint.calculateUptime
    rw [hpm, hwin]

/-- Witness for C10: adding a sample for N leaves key M untouched, and a
store differing from the hash-rate store only in its URL field computes the
same hash rate. -/
theorem claim_c10_store_frame_witness :
    ((newEndpoint ⟨"E", 0, 0⟩).addSample "N" (syncEntry "N" 1 0)).perNodeMetrics "M" = none ∧
    exHashRateEndpoint.calculateNodeHashRatePerSecond "N"
      = ({ exHashRateEndpoint with url := "Z" }).calculateNodeHashRatePerSecond "N" := by
  constructor
  · rw [claim_c10_store_frame.1 (newEndpoint ⟨"E", 0, 0⟩) "N" (syncEntry "N" 1 0) "M"
      (by decide)]
    rfl
  · exact claim_c10_store_frame.2.1 exHashRateEndpoint
      { exHashRateEndpoint with url := "Z" } "N" rfl rfl

/-! ## Watch-loop lemmas -/

theorem offlineTick_flag (cfg : NodeClientConfig) (s : WatchState) (i : TickInput)
    (up : UptimeMetric) :
    (offlineTick cfg s i up).state.outOfSyncAutohealingInProgress
      = s.outOfSyncAutohealingInProgress := by
  unfold offlineTick
  dsimp only
  repeat' split
  all_goals rfl

theorem offlineTick_no_spawn (cfg : NodeClientConfig) (s : WatchState) (i : TickInput)
    (up : UptimeMetric) :
    WatchAction.spawnHeal ∉ (offlineTick cfg s i up).actions := by
  unfold offlineTick
  dsimp only
  repeat' split
  all_goals simp

theorem offlineTick_syncMetrics (cfg : NodeClientConfig) (s : WatchState) (i : TickInput)
    (up : UptimeMetric) :
    (offlineTick cfg s i up).syncMetrics = none := by
  unfold offlineTick
  dsimp only
  repeat' split
  all_goals rfl

theorem newBlockUpdate_fields (s : WatchState) (i : TickInput) (ns : NodeState) :
    (newBlockUpdate s i ns).outOfSyncAutohealingInProgress
        = s.outOfSyncAutohealingInProgress ∧
    (newBlockUpdate s i ns).currentDowntimeStartedAt = s.currentDowntimeStartedAt ∧
    (newBlockUpdate s i ns).lastRestartedByAutohealingAt
        = s.lastRestartedByAutohealingAt ∧
    (newBlockUpdate s i ns).earliestAllowedRestartTime = s.earliestAllowedRestartTime := by
  unfold newBlockUpdate
  split
  · exact ⟨rfl, rfl, rfl, rfl⟩
  · exact ⟨rfl, rfl, rfl, rfl⟩

theorem r3Step_fields (cfg : NodeClientConfig) (s : WatchState) (b : Int) :
    (r3Step cfg s b).1.currentDowntimeStartedAt = s.currentDowntimeStartedAt ∧
    (r3Step cfg s b).1.lastRestartedByAutohealingAt = s.lastRestartedByAutohealingAt ∧
    (r3Step cfg s b).1.lastNewBlockObservedAt = s.lastNewBlockObservedAt ∧
    (r3Step cfg s b).1.earliestAllowedRestartTime = s.earliestAllowedRestartTime ∧
    (r3Step cfg s b).1.lastSynchedBlockNumber = s.lastSynchedBlockNumber := by
  unfold r3Step
  repeat' split
  all_goals exact ⟨rfl, rfl, rfl, rfl, rfl⟩

theorem frozenStep_downtime (cfg : NodeClientConfig) (s : WatchState) (i : TickInput)
    (cb : Int) :
    (frozenStep cfg s i cb).1.currentDowntimeStartedAt = s.currentDowntimeStartedAt := by
  unfold frozenStep
  dsimp only
  repeat' split
  all_goals rfl

theorem frozenStep_flag (cfg : NodeClientConfig) (s : WatchState) (i : TickInput)
    (cb : Int) :
    (frozenStep cfg s i cb).1.outOfSyncAutohealingInProgress
      = s.outOfSyncAutohealingInProgress := by
  unfold frozenStep
  dsimp only
  repeat' split
  all_goals rfl

theorem frozenStep_no_spawn (cfg : NodeClientConfig) (s : WatchState) (i : TickInput)
    (cb : Int) :
    WatchAction.spawnHeal ∉ (frozenStep cfg s i cb).2 := by
  unfold frozenStep
  dsimp only
  repeat' split
  all_goals simp

theorem r3Step_spawn_flag (cfg : NodeClientConfig) (s : WatchState) (b : Int) :
    (WatchAction.spawnHeal ∈ (r3Step cfg s b).2 →
      s.outOfSyncAutohealingInProgress = false
        ∧ (r3Step cfg s b).1.outOfSyncAutohealingInProgress = true) ∧
    (WatchAction.spawnHeal ∉ (r3Step cfg s b).2 →
      (r3Step cfg s b).1.outOfSyncAutohealingInProgress
        = s.outOfSyncAutohealingInProgress) := by
  by_cases ha : cfg.autoheal = true <;>
    by_cases hb : b > cfg.autohealSyncLatencyToleranceSeconds <;>
      by_cases hf : s.outOfSyncAutohealingInProgress = true <;>
        simp [r3Step, ha, hb, hf]

theorem r3Step_skip (cfg : NodeClientConfig) (s : WatchState) (b : Int)
    (ha : cfg.autoheal = true) (hb : b > cfg.autohealSyncLatencyToleranceSeconds)
    (hf : s.outOfSyncAutohealingInProgress = true) :
    r3Step cfg s b = (s, [.skipHealAlreadyInProgress]) := by
  simp [r3Step, ha, hb, hf]

theorem watchStep_offline_eq (cfg : NodeClientConfig) (s : WatchState) (i : TickInput)
    (h : i.result = none) :
    watchStep cfg s i = offlineTick cfg s i
      { endpointURL := cfg.rpcEndpoint, sampledAt := i.statusCheckStartedAt,
        up := false, rollingAveragePercentAvailable := 0 } := by
  unfold watchStep
  rw [h]

theorem watchStep_online_eq (cfg : NodeClientConfig) (s : WatchState) (i : TickInput)
    (ns : NodeState) (h : i.result = some ns) :
    watchStep cfg s i = onlineTick cfg s i ns
      { endpointURL := cfg.rpcEndpoint, sampledAt := i.statusCheckStartedAt,
        up := true, rollingAveragePercentAvailable := 0 } := by
  unfold watchStep
  rw [h]

theorem onlineTick_unfold (cfg : NodeClientConfig) (s : WatchState) (i : TickInput)
    (ns : NodeState) (u : UptimeMetric) :
    onlineTick cfg s i ns u =
      ⟨(frozenStep cfg
          (r3Step cfg (newBlockUpdate s i ns) (mkSyncSample i ns).secondsBehindLive).1
          i ns.syncInfo.latestBlockHeight).1,
        u,
        some (mkSyncSample i ns),
        (r3Step cfg (newBlockUpdate s i ns) (mkSyncSample i ns).secondsBehindLive).2
          ++ (frozenStep cfg
            (r3Step cfg (newBlockUpdate s i ns) (mkSyncSample i ns).secondsBehindLive).1
            i ns.syncInfo.latestBlockHeight).2⟩ := rfl

theorem onlineTick_downtime (cfg : NodeClientConfig) (s : WatchState) (i : TickInput)
    (ns : NodeState) (u : UptimeMetric) :
    (onlineTick cfg s i ns u).state.currentDowntimeStartedAt
      = s.currentDowntimeStartedAt := by
  rw [onlineTick_unfold]
  dsimp only
  rw [frozenStep_downtime, (r3Step_fields cfg _ _).1, (newBlockUpdate_fields s i ns).2.1]

theorem onlineTick_syncMetrics (cfg : NodeClientConfig) (s : WatchState) (i : TickInput)
    (ns : NodeState) (u : UptimeMetric) :
    (onlineTick cfg s i ns u).syncMetrics = some (mkSyncSample i ns) := rfl

theorem watchStep_spawn_flag (cfg : NodeClientConfig) (s : WatchState) (i : TickInput) :
    (WatchAction.spawnHeal ∈ (watchStep cfg s i).actions →
      s.outOfSyncAutohealingInProgress = false
        ∧ (watchStep cfg s i).state.outOfSyncAutohealingInProgress = true) ∧
    (WatchAction.spawnHeal ∉ (watchStep cfg s i).actions →
      (watchStep cfg s i).state.outOfSyncAutohealingInProgress
        = s.outOfSyncAutohealingInProgress) := by
  cases hres : i.result with
  | none =>
      rw [watchStep_offline_eq cfg s i hres]
      exact ⟨fun h => absurd h (offlineTick_no_spawn _ _ _ _),
        fun _ => offlineTick_flag _ _ _ _⟩
  | some ns =>
      rw [watchStep_online_eq cfg s i ns hres, onlineTick_unfold]
      dsimp only
      have hnb := (newBlockUpdate_fields s i ns).1
      have hfzf := frozenStep_flag cfg
        (r3Step cfg (newBlockUpdate s i ns) (mkSyncSample i ns).secondsBehindLive).1
        i ns.syncInfo.latestBlockHeight
      have hfzs := frozenStep_no_spawn cfg
        (r3Step cfg (newBlockUpdate s i ns) (mkSyncSample i ns).secondsBehindLive).1
        i ns.syncInfo.latestBlockHeight
      have hr3 := r3Step_spawn_flag cfg (newBlockUpdate s i ns)
        (mkSyncSample i ns).secondsBehindLive
      constructor
      · intro h
        rw [List.mem_append] at h
        rcases h with h | h
        · have h2 := hr3.1 h
          refine ⟨?_, ?_⟩
          · rw [← hnb]
            exact h2.1
          · rw [hfzf]
            exact h2.2
        · exact absurd h hfzs
      · intro h
        rw [List.mem_append] at h
        push_neg at h
        rw [hfzf, hr3.2 h.1, hnb]

theorem sysStep_healerInvariant (cfg : NodeClientConfig) (a b : SysState)
    (hstep : SysStep cfg a b) (hinv : healerInvariant a) : healerInvariant b := by
  cases hstep with
  | tick i =>
      unfold healerInvariant at hinv ⊢
      by_cases hsp : WatchAction.spawnHeal ∈ (watchStep cfg a.ws i).actions
      · have h := (watchStep_spawn_flag cfg a.ws i).1 hsp
        rw [h.1] at hinv
        simp only [hsp, if_true, h.2, Bool.false_eq_true, if_false] at hinv ⊢
        omega
      · have h := (watchStep_spawn_flag cfg a.ws i).2 hsp
        simp only [hsp, if_false, h]
        simpa using hinv
  | healFinish n hn =>
      unfold healerInvariant at hinv ⊢
      cases hf : a.ws.outOfSyncAutohealingInProgress
      · rw [hf] at hinv
        simp at hinv
        omega
      · rw [hf] at hinv
        simp at hinv
        simp
        omega

theorem reachable_healerInvariant (cfg : NodeClientConfig) (start : ℚ) (σ : SysState)
    (h : ReachableSys cfg start σ) : healerInvariant σ := by
  unfold ReachableSys at h
  induction h with
  | refl => rfl
  | tail hab hstep ih => exact sysStep_healerInvariant cfg _ _ hstep ih

/-! ## Claim C6: rule R3 mutual exclusion -/

/-- C6.  At most one healing task per endpoint is ever active, with the
out_of_sync_in_progress flag as the sole guard: a sync sample above the
tolerance processed while the flag is set spawns no new task and records the
healing-already-in-progress skip, leaving the flag set; a ticker iteration
never clears the flag (only the finishing healing task does); and in every
reachable system state the number of unfinished healing tasks is at most
one. -/
theorem claim_c6_r3_mutual_exclusion :
    (∀ (cfg : NodeClientConfig) (start : ℚ) (σ : SysState),
      ReachableSys cfg start σ → σ.activeHealers ≤ 1) ∧
    (∀ (cfg : NodeClientConfig) (s : WatchState) (i : TickInput),
      WatchAction.spawnHeal ∈ (watchStep cfg s i).actions →
      s.outOfSyncAutohealingInProgress = false) ∧
    (∀ (cfg : NodeClientConfig) (s : WatchState) (i : TickInput) (ns : NodeState),
      i.result = some ns → cfg.autoheal = true →
      s.outOfSyncAutohealingInProgress = true →
      truncQ (i.now - ns.syncInfo.latestBlockTime)
          > cfg.autohealSyncLatencyToleranceSeconds →
      WatchAction.skipHealAlreadyInProgress ∈ (watchStep cfg s i).actions ∧
      WatchAction.spawnHeal ∉ (watchStep cfg s i).actions ∧
      (watchStep cfg s i).state.outOfSyncAutohealingInProgress = true) ∧
    (∀ (cfg : NodeClientConfig) (s : WatchState) (i : TickInput),
      (watchStep cfg s i).state.outOfSyncAutohealingInProgress = false →
      s.outOfSyncAutohealingInProgress = false) := by
  refine ⟨?_, ?_, ?_, ?_⟩
  · intro cfg start σ h
    have hinv := reachable_healerInvariant cfg start σ h
    unfold healerInvariant at hinv
    rw [hinv]
    split <;> omega
  · intro cfg s i h
    exact ((watchStep_spawn_flag cfg s i).1 h).1
  · intro cfg s i ns hres ha hf hb
    have hnb := (newBlockUpdate_fields s i ns).1
    have hf1 : (newBlockUpdate s i ns).outOfSyncAutohealingInProgress = true := by
      rw [hnb]
      exact hf
    have hr3 := r3Step_skip cfg (newBlockUpdate s i ns)
      (mkSyncSample i ns).secondsBehindLive ha hb hf1
    rw [watchStep_online_eq cfg s i ns hres, onlineTick_unfold]
    dsimp only
    rw [hr3]
    dsimp only
    refine ⟨by simp, ?_, ?_⟩
    · rw [List.mem_append]
      push_neg
      refine ⟨by simp, frozenStep_no_spawn _ _ _ _⟩
    · rw [frozenStep_flag]
      exact hf1
  · intro cfg s i h
    by_cases hsp : WatchAction.spawnHeal ∈ (watchStep cfg s i).actions
    · have h2 := (watchStep_spawn_flag cfg s i).1 hsp
      rw [h2.2] at h
      cases h
    · have h2 := (watchStep_spawn_flag cfg s i).2 hsp
      rw [← h2]
      exact h

/-- Witness for C6: the empty run keeps the healer count at zero, and a
20-seconds-behind sample processed with the flag set and tolerance 10 records
the skip, spawns nothing and leaves the flag set. -/
theorem claim_c6_r3_mutual_exclusion_witness :
    (⟨initWatchState exHealCfg 0, 0⟩ : SysState).activeHealers ≤ 1 ∧
    (WatchAction.skipHealAlreadyInProgress
        ∈ (watchStep exHealCfg exHealingState exBehindTick).actions ∧
      WatchAction.spawnHeal ∉ (watchStep exHealCfg exHealingState exBehindTick).actions ∧
      (watchStep exHealCfg exHealingState exBehindTick).state.outOfSyncAutohealingInProgress
        = true) := by
  constructor
  · exact claim_c6_r3_mutual_exclusion.1 exHealCfg 0 _ Relation.ReflTransGen.refl
  · exact claim_c6_r3_mutual_exclusion.2.2.1 exHealCfg exHealingState exBehindTick
      (probeResult 5 80) rfl rfl rfl (by norm_num [exBehindTick, upTick, probeResult,
        truncQ, exHealCfg])

/-! ## Claim C8: seconds behind live on successful probes -/

theorem truncQ_of_nonneg (q : ℚ) (h : 0 ≤ q) : truncQ q = ⌊q⌋ := if_pos h

theorem truncQ_neg_of_le (q : ℚ) (h : q ≤ -1) : truncQ q < 0 := by
  unfold truncQ
  rw [if_neg (by linarith)]
  have h1 : (1 : ℤ) ≤ ⌊-q⌋ := by
    rw [Int.le_floor]
    push_cast
    linarith
  omega

/-- C8 counterexample.  A successful probe at second 5 whose node-reported
latest block time is second 7 (two seconds ahead of the local clock) emits a
sync sample with seconds_behind_live = -2: the emitted value is negative,
refuting the claimed max(0, floor(...)) clamping. -/
theorem claim_c8_seconds_behind_counterexample :
    (watchStep exQuietCfg (initWatchState exQuietCfg 0) exAheadTick).syncMetrics
      = some (mkSyncSample exAheadTick (probeResult 10 7)) ∧
    (mkSyncSample exAheadTick (probeResult 10 7)).secondsBehindLive = -2 ∧
    (mkSyncSample exAheadTick (probeResult 10 7)).secondsBehindLive < 0 := by
  have h2 : (mkSyncSample exAheadTick (probeResult 10 7)).secondsBehindLive = -2 := by
    norm_num [mkSyncSample, exAheadTick, upTick, probeResult, truncQ]
  refine ⟨?_, h2, by rw [h2]; norm_num⟩
  rw [watchStep_online_eq exQuietCfg _ exAheadTick (probeResult 10 7) rfl]
  exact onlineTick_syncMetrics _ _ _ _ _

/-- C8 amended.  Every successful probe emits a sync sample whose
seconds_behind_live is the int64 truncation toward zero of
(now - latest_block_time) in seconds; the claimed max(0, floor(...)) form
holds whenever the clock difference is nonnegative, but the value is
negative whenever the node-reported block time is at least one second ahead
of the local clock. -/
theorem claim_c8_seconds_behind_amended (cfg : NodeClientConfig) (s : WatchState)
    (i : TickInput) (ns : NodeState) (hres : i.result = some ns) :
    (watchStep cfg s i).syncMetrics = some (mkSyncSample i ns) ∧
    (mkSyncSample i ns).secondsBehindLive
      = truncQ (i.now - ns.syncInfo.latestBlockTime) ∧
    (0 ≤ i.now - ns.syncInfo.latestBlockTime →
      (mkSyncSample i ns).secondsBehindLive
        = max 0 ⌊i.now - ns.syncInfo.latestBlockTime⌋) ∧
    (i.now - ns.syncInfo.latestBlockTime ≤ -1 →
      (mkSyncSample i ns).secondsBehindLive < 0) := by
  refine ⟨?_, rfl, ?_, ?_⟩
  · rw [watchStep_online_eq cfg s i ns hres]
    exact onlineTick_syncMetrics _ _ _ _ _
  · intro h
    show truncQ (i.now - ns.syncInfo.latestBlockTime) = _
    rw [truncQ_of_nonneg _ h, max_eq_right (Int.floor_nonneg.mpr h)]
  · intro h
    exact truncQ_neg_of_le _ h

/-- Witness for the amended C8: a probe at second 5 of a block minted at
second 3 reports two seconds behind live. -/
theorem claim_c8_seconds_behind_amended_witness :
    (watchStep exQuietCfg (initWatchState exQuietCfg 0) (upTick 5 10 3)).syncMetrics
      = some (mkSyncSample (upTick 5 10 3) (probeResult 10 3)) ∧
    (mkSyncSample (upTick 5 10 3) (probeResult 10 3)).secondsBehindLive
      = max 0 ⌊(5 : ℚ) - 3⌋ := by
  have h := claim_c8_seconds_behind_amended exQuietCfg (initWatchState exQuietCfg 0)
    (upTick 5 10 3) (probeResult 10 3) rfl
  refine ⟨h.1, ?_⟩
  have h3 := h.2.2.1 (by norm_num [upTick, probeResult])
  rw [show (upTick 5 10 3).now - (probeResult 10 3).syncInfo.latestBlockTime
      = (5 : ℚ) - 3 from by norm_num [upTick, probeResult]] at h3
  exact h3

theorem restartTimes_cons (cfg : NodeClientConfig) (s : WatchState) (i : TickInput)
    (rest : List TickInput) :
    restartTimes cfg s (i :: rest)
      = (if restarted (watchStep cfg s i) then [i.now] else [])
        ++ restartTimes cfg (watchStep cfg s i).state rest := rfl

/-! ## Claim C5: restart separation across rules R1 and R2 -/

/-- C5 exhibit.  Under autoheal with offline threshold 3s, frozen threshold
1s and restart delay 10s, the run healthy(1), offline(2), offline(6),
frozen(11) performs a successful offline-rule restart at second 6 and a
successful frozen-rule restart at second 11: two restarts of the same
endpoint only 5 seconds apart, far below the 10-second restart delay the
documentation promises to measure from the last restart.  The delay gate
compares the frozen duration (since the last new block, here 10s) rather
than the time since the last restart. -/
theorem claim_c5_restart_delay_violated :
    restartTimes exRestartCfg (initWatchState exRestartCfg 0) exRestartTicks = [6, 11] ∧
    wfTicks 0 exRestartTicks ∧
    ¬ ((6 : ℚ) + (exRestartCfg.autohealRestartDelaySeconds : ℚ) ≤ 11) := by
  have hs0 : initWatchState exRestartCfg 0 = ⟨false, none, 0, 0, none, 0⟩ := by
    norm_num [initWatchState, exRestartCfg]
  have h1 : watchStep exRestartCfg ⟨false, none, 0, 0, none, 0⟩ (upTick 1 10 1)
      = ⟨⟨false, none, 1, 10, none, 0⟩, ⟨"E", true, 1, 0⟩,
          some (mkSyncSample (upTick 1 10 1) (probeResult 10 1)),
          [.notRestartingFrozen]⟩ := by
    norm_num [watchStep, onlineTick, newBlockUpdate, r3Step, frozenStep,
      mkSyncSample, truncQ, exRestartCfg, upTick, probeResult]
  have h2 : watchStep exRestartCfg ⟨false, none, 1, 10, none, 0⟩ (downTick 2)
      = ⟨⟨false, none, 1, 10, some 2, 0⟩, ⟨"E", false, 2, 0⟩, none,
          [.notRestartingOffline]⟩ := by
    norm_num [watchStep, offlineTick, exRestartCfg, downTick]
  have h3 : watchStep exRestartCfg ⟨false, none, 1, 10, some 2, 0⟩ (downTick 6)
      = ⟨⟨false, some 6, 1, 10, none, 0⟩, ⟨"E", false, 6, 0⟩, none,
          [.restartOffline]⟩ := by
    norm_num [watchStep, offlineTick, exRestartCfg, downTick]
    all_goals simp
    all_goals norm_num
  have h4 : watchStep exRestartCfg ⟨false, some 6, 1, 10, none, 0⟩ (upTick 11 10 11)
      = ⟨⟨false, some 11, 11, 10, none, 0⟩, ⟨"E", true, 11, 0⟩,
          some (mkSyncSample (upTick 11 10 11) (probeResult 10 11)),
          [.restartFrozen]⟩ := by
    norm_num [watchStep, onlineTick, newBlockUpdate, r3Step, frozenStep,
      mkSyncSample, truncQ, exRestartCfg, upTick, probeResult]
  have r4 : restartTimes exRestartCfg ⟨false, some 6, 1, 10, none, 0⟩ [upTick 11 10 11]
      = [11] := by
    rw [restartTimes_cons, h4]
    norm_num [restarted, restartTimes, upTick]
  have r3 : restartTimes exRestartCfg ⟨false, none, 1, 10, some 2, 0⟩
      [downTick 6, upTick 11 10 11] = [6, 11] := by
    rw [restartTimes_cons, h3]
    dsimp only
    rw [r4]
    norm_num [restarted, downTick]
  have r2 : restartTimes exRestartCfg ⟨false, none, 1, 10, none, 0⟩
      [downTick 2, downTick 6, upTick 11 10 11] = [6, 11] := by
    rw [restartTimes_cons, h2]
    dsimp only
    rw [r3]
    norm_num [restarted, downTick]
    all_goals decide
  refine ⟨?_, ?_, ?_⟩
  · rw [show exRestartTicks
        = [upTick 1 10 1, downTick 2, downTick 6, upTick 11 10 11] from rfl, hs0]
    rw [restartTimes_cons, h1]
    dsimp only
    rw [r2]
    norm_num [restarted, upTick]
    all_goals decide
  · norm_num [wfTicks, exRestartTicks, upTick, downTick]
  · norm_num [exRestartCfg]

/-! ## Claim C7: downtime window on recovery -/

/-- C7 exhibit.  No successful probe ever changes current_downtime_started_at
(the field is cleared only by a successful offline-rule restart), so the
up=true sample at second 3 leaves the window opened at second 1 in place;
consequently, in the run offline(1), healthy(2), offline(400) with offline
threshold 300, a restart fires at second 400 although the node had been
continuously offline for 0 seconds, the downtime window spanning the
intervening healthy period. -/
theorem claim_c7_downtime_survives_up_sample :
    (∀ (cfg : NodeClientConfig) (s : WatchState) (i : TickInput) (ns : NodeState),
      i.result = some ns →
      (watchStep cfg s i).state.currentDowntimeStartedAt = s.currentDowntimeStartedAt) ∧
    (watchStep exQuietCfg exDowntimeState (upTick 3 5 3)).state.currentDowntimeStartedAt
      = some 1 ∧
    restartTimes exQuietCfg (initWatchState exQuietCfg 0)
      [downTick 1, upTick 2 10 2, downTick 400] = [400] := by
  have hgen : ∀ (cfg : NodeClientConfig) (s : WatchState) (i : TickInput) (ns : NodeState),
      i.result = some ns →
      (watchStep cfg s i).state.currentDowntimeStartedAt = s.currentDowntimeStartedAt := by
    intro cfg s i ns hres
    rw [watchStep_online_eq cfg s i ns hres]
    exact onlineTick_downtime _ _ _ _ _
  refine ⟨hgen, ?_, ?_⟩
  · rw [hgen exQuietCfg exDowntimeState (upTick 3 5 3) (probeResult 5 3) rfl]
    rfl
  · have hs0 : initWatchState exQuietCfg 0 = ⟨false, none, 0, 0, none, 0⟩ := by
      norm_num [initWatchState, exQuietCfg]
    have h1 : watchStep exQuietCfg ⟨false, none, 0, 0, none, 0⟩ (downTick 1)
        = ⟨⟨false, none, 0, 0, some 1, 0⟩, ⟨"E", false, 1, 0⟩, none,
            [.notRestartingOffline]⟩ := by
      norm_num [watchStep, offlineTick, exQuietCfg, downTick]
    have h2 : watchStep exQuietCfg ⟨false, none, 0, 0, some 1, 0⟩ (upTick 2 10 2)
        = ⟨⟨false, none, 2, 10, some 1, 0⟩, ⟨"E", true, 2, 0⟩,
            some (mkSyncSample (upTick 2 10 2) (probeResult 10 2)),
            [.notRestartingFrozen]⟩ := by
      norm_num [watchStep, onlineTick, newBlockUpdate, r3Step, frozenStep,
        mkSyncSample, truncQ, exQuietCfg, upTick, probeResult]
    have h3 : watchStep exQuietCfg ⟨false, none, 2, 10, some 1, 0⟩ (downTick 400)
        = ⟨⟨false, some 400, 2, 10, none, 0⟩, ⟨"E", false, 400, 0⟩, none,
            [.restartOffline]⟩ := by
      norm_num [watchStep, offlineTick, exQuietCfg, downTick]
      all_goals simp
      all_goals norm_num
    have r2 : restartTimes exQuietCfg ⟨false, none, 2, 10, some 1, 0⟩ [downTick 400]
        = [400] := by
      rw [restartTimes_cons, h3]
      norm_num [restarted, restartTimes, downTick]
    have r1 : restartTimes exQuietCfg ⟨false, none, 0, 0, some 1, 0⟩
        [upTick 2 10 2, downTick 400] = [400] := by
      rw [restartTimes_cons, h2]
      dsimp only
      rw [r2]
      norm_num [restarted, upTick]
      all_goals decide
    rw [hs0, restartTimes_cons, h1]
    dsimp only
    rw [r1]
    norm_num [restarted, downTick]
    all_goals decide

/-! ## Claim C9: file-sink per-record routing -/

/-- C9.  Per-record routing of the file sink (modelled from the spec, the
current collect/file.go being absent from src): for a record whose
collect_to_file flag is false, Collect performs no write and no rotation --
the collector state is returned unchanged -- and returns no error. -/
theorem claim_c9_file_sink_routing (fc : FileCollectorState) (now : ℚ)
    (m : MetricRecord) (h : m.collectToFile = false) :
    fileCollect fc now m = (fc, none) := by
  simp [fileCollect, h]

/-- Witness for C9: a cloud-only record is ignored by the file sink even
when the rotation interval has long expired. -/
theorem claim_c9_file_sink_routing_witness :
    fileCollect ⟨0, 3600, [], []⟩ 100000
      ⟨"LatestBlockHeight", [("node_id", "N")], 42, 5, false, true⟩
      = (⟨0, 3600, [], []⟩, none) :=
  claim_c9_file_sink_routing ⟨0, 3600, [], []⟩ 100000
    ⟨"LatestBlockHeight", [("node_id", "N")], 42, 5, false, true⟩ rfl

end Doctor
